import Mathlib

/-
Verification of the pygad_utils repository: a shallow embedding of the
parameter-space transforms (LinearTransform, ExponentialTransform,
ParameterSpace) from pygad_utils/__init__.py and of the constraint-retry
operator wrappers from pygad_utils/crossover.py and pygad_utils/mutation.py,
followed by theorems settling the frozen claims about them.

Modelling conventions:
  - Python floats are modelled by the real numbers.
  - Plain Python float division raises ZeroDivisionError on a zero
    denominator; where the source performs such a division it is embedded
    as the fallible function pydiv below.  Divisions performed by numpy
    (which yield inf or nan without raising) are embedded with the total
    real division of Lean; every theorem proved below only evaluates such
    a division on a nonzero denominator, except where a counterexample
    explicitly exercises the degenerate case (noted at the theorem).
  - Python exceptions are modelled by the Except monad with the error
    enumeration PyErr; each constructor is one distinct raise site of the
    source (the doc comment of the constructor quotes the site).
-/

noncomputable section

/-- One error constructor per distinct raise site of the source that the
claims exercise:
  - zeroDivision: Python ZeroDivisionError from float division by zero;
  - unsupportedParameter: ValueError, Unsupported type of parameter
    transformation, in ParameterSpace construction;
  - missingGeneRange: ValueError, gene_range has to be defined if not
    Transform objects are given;
  - unknownTransformType: ValueError, Unknown transform type;
  - sizeMismatch: ValueError, the size of the gene is not equal to the size
    of the parameter space, in ParameterSpace.to_parameters;
  - keyError: Python KeyError from a dictionary lookup in
    ParameterSpace.to_genes;
  - parentsCondition: ValueError, Not all parents initially satisfy the
    condition, in conditional_crossover_func;
  - offspringCondition: ValueError, Not all offsprings initially satisfy
    the condition, in conditional_mutation_func. -/
inductive PyErr where
  | zeroDivision
  | unsupportedParameter
  | missingGeneRange
  | unknownTransformType
  | sizeMismatch
  | keyError
  | parentsCondition
  | offspringCondition
  deriving DecidableEq

/-- Division of plain Python floats: raises ZeroDivisionError on a zero
denominator, otherwise returns the exact quotient. -/
def pydiv (a b : ℝ) : Except PyErr ℝ :=
  if b = 0 then Except.error PyErr.zeroDivision else Except.ok (a / b)

/-- The state of a constructed LinearTransform: attributes slope and
intercept, as set by LinearTransform.__init__. -/
structure LinearTransform where
  slope : ℝ
  intercept : ℝ

/-- LinearTransform.__init__ (pygad_utils/__init__.py, lines 15-24).
The two tuple-length checks of the source are vacuous here because the
ranges are embedded as pairs; the two divisions are plain Python float
divisions and are embedded with pydiv, in source order (slope first). -/
def LinearTransform.init (gene_range value_range : ℝ × ℝ) :
    Except PyErr LinearTransform :=
  match pydiv (value_range.2 - value_range.1) (gene_range.2 - gene_range.1),
      pydiv (value_range.1 * gene_range.2 - value_range.2 * gene_range.1)
        (gene_range.2 - gene_range.1) with
  | Except.ok s, Except.ok i => Except.ok ⟨s, i⟩
  | Except.error e, _ => Except.error e
  | _, Except.error e => Except.error e

/-- LinearTransform.to_value (line 35-36): slope * gene + intercept. -/
def LinearTransform.to_value (T : LinearTransform) (gene : ℝ) : ℝ :=
  T.slope * gene + T.intercept

/-- LinearTransform.to_gene (lines 26-33): (value - intercept) / slope,
a plain Python float division, hence fallible.  The pint branch of the
source only strips a dimensionless unit from the result and is the
identity on bare floats, which is what the real-number embedding models. -/
def LinearTransform.to_gene (T : LinearTransform) (value : ℝ) :
    Except PyErr ℝ :=
  pydiv (value - T.intercept) T.slope

/-- The state of a constructed ExponentialTransform: attributes exp_coeff
and coeff, as set by ExponentialTransform.__init__. -/
structure ExponentialTransform where
  exp_coeff : ℝ
  coeff : ℝ

/-- ExponentialTransform.__init__ (pygad_utils/__init__.py, lines 50-59):
exp_coeff = log(v2 / v1) / (g2 - g1) and
coeff = v2 ^ (g1 / (g2 - g1)) * v1 ^ (g2 / (g2 - g1)), with real log and
real power.  The source computes these with numpy log and Python float
power; on the domain the claims quantify over (g1 distinct from g2, both
values positive) every intermediate quantity is in the range where that
arithmetic agrees with exact real arithmetic. -/
def ExponentialTransform.init (gene_range value_range : ℝ × ℝ) :
    ExponentialTransform :=
  { exp_coeff :=
      Real.log (value_range.2 / value_range.1) /
        (gene_range.2 - gene_range.1)
    coeff :=
      value_range.2 ^ (gene_range.1 / (gene_range.2 - gene_range.1)) *
        value_range.1 ^ (gene_range.2 / (gene_range.2 - gene_range.1)) }

/-- ExponentialTransform.to_value (lines 61-62): coeff * exp(exp_coeff * gene). -/
def ExponentialTransform.to_value (T : ExponentialTransform) (gene : ℝ) : ℝ :=
  T.coeff * Real.exp (T.exp_coeff * gene)

/-- ExponentialTransform.to_gene (lines 64-65):
log(value / coeff) / exp_coeff.  Both the division by coeff and the
division by exp_coeff go through numpy in the source (no exception on a
zero denominator, an inf or nan instead); they are embedded with total
real division, whose junk value at a zero denominator is 0. -/
def ExponentialTransform.to_gene (T : ExponentialTransform) (value : ℝ) : ℝ :=
  Real.log (value / T.coeff) / T.exp_coeff

/-- The duck-typed transform capability that ParameterSpace stores per
entry: any object exposing to_value and to_gene (pygad_utils/__init__.py,
lines 95-98, probes exactly those two attributes).  to_gene is fallible
because LinearTransform.to_gene can raise ZeroDivisionError. -/
structure Transform where
  to_value : ℝ → ℝ
  to_gene : ℝ → Except PyErr ℝ

/-- The Transform capability of a LinearTransform. -/
def LinearTransform.toTransform (T : LinearTransform) : Transform :=
  ⟨T.to_value, T.to_gene⟩

/-- The Transform capability of an ExponentialTransform (its to_gene never
raises: all of its arithmetic goes through numpy). -/
def ExponentialTransform.toTransform (T : ExponentialTransform) : Transform :=
  ⟨T.to_value, fun v => Except.ok (T.to_gene v)⟩

/-- The transform-kind string lin of ParameterSpace.__init__, line 110. -/
def kindLin : String := "lin"

/-- The transform-kind string linear of ParameterSpace.__init__, line 110. -/
def kindLinear : String := "linear"

/-- The transform-kind string exp of ParameterSpace.__init__, line 112. -/
def kindExp : String := "exp"

/-- The transform-kind string exponential of line 112. -/
def kindExponential : String := "exponential"

/-- One value of the parameters dictionary given to ParameterSpace:
either an object with the Transform capability, a 2-tuple of value
bounds, a 3-tuple of value bounds plus a kind string, or a tuple of some
other length (whose elements are irrelevant to the control flow). -/
inductive ParamEntry where
  | transform (t : Transform)
  | pair (v_min v_max : ℝ)
  | triple (v_min v_max : ℝ) (kind : String)
  | otherTuple (length : ℕ)

/-- The shared tail of the non-Transform branches of
ParameterSpace.__init__ (lines 107-117): first the gene_range presence
check, then the dispatch on the kind string, then construction of the
inferred transform. -/
def mkFromRange (v_min v_max : ℝ) (kind : String)
    (gene_range : Option (ℝ × ℝ)) : Except PyErr Transform :=
  match gene_range with
  | none => Except.error PyErr.missingGeneRange
  | some gr =>
    if kind = kindLin ∨ kind = kindLinear then
      match LinearTransform.init gr (v_min, v_max) with
      | Except.ok T => Except.ok T.toTransform
      | Except.error e => Except.error e
    else if kind = kindExp ∨ kind = kindExponential then
      Except.ok (ExponentialTransform.init gr (v_min, v_max)).toTransform
    else
      Except.error PyErr.unknownTransformType

/-- The per-entry body of the construction loop of
ParameterSpace.__init__ (lines 94-117): a ready Transform is stored
as-is; a 2-tuple is read as value bounds with kind linear; a 3-tuple
carries its own kind; any other tuple length raises immediately, before
the gene_range presence check. -/
def processEntry (p : ParamEntry) (gene_range : Option (ℝ × ℝ)) :
    Except PyErr Transform :=
  match p with
  | ParamEntry.transform t => Except.ok t
  | ParamEntry.pair v_min v_max => mkFromRange v_min v_max kindLinear gene_range
  | ParamEntry.triple v_min v_max kind => mkFromRange v_min v_max kind gene_range
  | ParamEntry.otherTuple _ => Except.error PyErr.unsupportedParameter

/-- ParameterSpace.__init__ over the whole parameters dictionary, which is
modelled as an association list in insertion order (Python dictionaries
preserve insertion order and have pairwise-distinct keys).  The stored
state self.parameters is again an association list in the same order; the
entries are processed in order and the first raise aborts the loop. -/
def ParameterSpace.init : List (String × ParamEntry) → Option (ℝ × ℝ) →
    Except PyErr (List (String × Transform))
  | [], _ => Except.ok []
  | ke :: rest, gene_range =>
    match processEntry ke.2 gene_range, ParameterSpace.init rest gene_range with
    | Except.ok t, Except.ok ps => Except.ok ((ke.1, t) :: ps)
    | Except.error e, _ => Except.error e
    | Except.ok _, Except.error e => Except.error e

/-- The dictionary built by the loop of ParameterSpace.to_parameters
(lines 141-143): result[k] = transform.to_value(gene) for gene, k in
zip(genes, parameters), in insertion order (keys of a Python dictionary
are distinct, so every insertion is a fresh one). -/
def buildParams : List ℝ → List (String × Transform) → List (String × ℝ)
  | g :: gs, kt :: rest => (kt.1, kt.2.to_value g) :: buildParams gs rest
  | _, _ => []

/-- ParameterSpace.to_parameters (lines 122-145): raises when the gene
count differs from the parameter count, otherwise builds the name-to-value
dictionary. -/
def ParameterSpace.to_parameters (ps : List (String × Transform))
    (genes : List ℝ) : Except PyErr (List (String × ℝ)) :=
  if genes.length ≠ ps.length then Except.error PyErr.sizeMismatch
  else Except.ok (buildParams genes ps)

/-- ParameterSpace.to_genes (lines 147-148): the tuple of
transform.to_gene(parameters[k]) over the stored entries in insertion
order; a missing key raises KeyError, and each to_gene call may itself
raise.  The generator is evaluated left to right, so the first failure
wins. -/
def ParameterSpace.to_genes : List (String × Transform) →
    List (String × ℝ) → Except PyErr (List ℝ)
  | [], _ => Except.ok []
  | kt :: rest, params =>
    match params.lookup kt.1 with
    | none => Except.error PyErr.keyError
    | some v =>
      match kt.2.to_gene v, ParameterSpace.to_genes rest params with
      | Except.ok g, Except.ok gs => Except.ok (g :: gs)
      | Except.error e, _ => Except.error e
      | Except.ok _, Except.error e => Except.error e

/-- One row of a 2D numpy array of genes. -/
abbrev Row := List ℝ

/-- numpy count_nonzero of a boolean mask. -/
def countTrue (mask : List Bool) : ℕ := (mask.filter id).length

/-- Boolean-mask fancy indexing read, arr[mask]: the rows of arr at the
positions where mask is true, in order (a copy in numpy). -/
def maskSelect : List Bool → List Row → List Row
  | true :: ms, d :: ds => d :: maskSelect ms ds
  | false :: ms, _ :: ds => maskSelect ms ds
  | _, _ => []

/-- Boolean-mask fancy indexing write, arr[mask] = new: the rows of arr at
the positions where mask is true are replaced by the successive rows of
new; all other rows are kept.  In every use below the number of rows of
new equals the number of true entries of the mask, as numpy requires. -/
def maskWrite : List Bool → List Row → List Row → List Row
  | _, [], _ => []
  | [], ds, _ => ds
  | true :: ms, _ :: ds, n :: ns => n :: maskWrite ms ds ns
  | true :: ms, d :: ds, [] => d :: maskWrite ms ds []
  | false :: ms, d :: ds, ns => d :: maskWrite ms ds ns

/-- The retry loop of conditional_crossover_func
(pygad_utils/crossover.py, lines 31-36).  The base crossover and the
shuffle consume shared randomness; they are embedded as functions of a
call counter k, one fresh index per call.  fuel bounds the number of
remaining iterations; none means the loop did not terminate within the
given fuel (the source has no bound at all). -/
def crossoverLoop (condition : List Row → List Bool)
    (crossover_func : ℕ → List Row → ℕ × ℕ → List Row)
    (shuffle : ℕ → List Row → List Row) (cols : ℕ) :
    ℕ → ℕ → List Row → List Row → List Bool → Option (List Row)
  | 0, _, _, _, _ => none
  | fuel + 1, k, parents, offspring, to_generate =>
    if to_generate.any id then
      let offspring2 :=
        maskWrite to_generate offspring
          (crossover_func k parents (countTrue to_generate, cols))
      crossoverLoop condition crossover_func shuffle cols fuel (k + 1)
        (shuffle k parents) offspring2 (condition offspring2)
    else
      some offspring

/-- conditional_crossover_func (pygad_utils/crossover.py, lines 23-37):
the precondition check on the parents, then the rejection loop starting
from a zero offspring array with every row pending.  The outer some marks
that the call returned or raised at all (none is fuel exhaustion). -/
def conditional_crossover_func (condition : List Row → List Bool)
    (crossover_func : ℕ → List Row → ℕ × ℕ → List Row)
    (shuffle : ℕ → List Row → List Row) (parents : List Row)
    (offspring_size : ℕ × ℕ) (fuel : ℕ) : Option (Except PyErr (List Row)) :=
  if (condition parents).any id then
    some (Except.error PyErr.parentsCondition)
  else
    (crossoverLoop condition crossover_func shuffle offspring_size.2 fuel 0
        parents
        (List.replicate offspring_size.1 (List.replicate offspring_size.2 0))
        (List.replicate offspring_size.1 true)).map Except.ok

/-- The retry loop of conditional_mutation_func
(pygad_utils/mutation.py, lines 70-73).  initial is the snapshot
initial_offspring = offspring.copy() taken at entry; the base mutation is
embedded as a function of a call counter k.  numpy fancy indexing makes
initial_offspring[check] a copy, so an in-place base mutation cannot
corrupt the snapshot, and the functional embedding is faithful. -/
def mutationLoop (condition : List Row → List Bool)
    (mutation_func : ℕ → List Row → List Row) (initial : List Row) :
    ℕ → ℕ → List Row → List Bool → Option (List Row)
  | 0, _, _, _ => none
  | fuel + 1, k, offspring, check =>
    if check.any id then
      let offspring2 :=
        maskWrite check offspring (mutation_func k (maskSelect check initial))
      mutationLoop condition mutation_func initial fuel (k + 1) offspring2
        (condition offspring2)
    else
      some offspring

/-- conditional_mutation_func (pygad_utils/mutation.py, lines 61-74):
the precondition check on the offspring, then check_offspring[:] = True
(every entry of the mask that condition returned is set), the snapshot
copy, and the rejection loop. -/
def conditional_mutation_func (condition : List Row → List Bool)
    (mutation_func : ℕ → List Row → List Row) (offspring : List Row)
    (fuel : ℕ) : Option (Except PyErr (List Row)) :=
  if (condition offspring).any id then
    some (Except.error PyErr.offspringCondition)
  else
    (mutationLoop condition mutation_func offspring fuel 0 offspring
        ((condition offspring).map fun _ => true)).map Except.ok

/-- For any exponential transform whose exp_coeff is nonzero and whose
coeff is positive, to_gene is a left inverse of to_value. -/
lemma ExponentialTransform.to_gene_to_value (T : ExponentialTransform)
    (ha : T.exp_coeff ≠ 0) (hc : 0 < T.coeff) (g : ℝ) :
    T.to_gene (T.to_value g) = g := by
  unfold ExponentialTransform.to_gene ExponentialTransform.to_value
  rw [mul_div_cancel_left₀ _ (ne_of_gt hc), Real.log_exp,
    mul_div_cancel_left₀ _ ha]

/-- For any exponential transform whose exp_coeff is nonzero and whose
coeff is positive, to_value inverts to_gene on positive values. -/
lemma ExponentialTransform.to_value_to_gene (T : ExponentialTransform)
    (ha : T.exp_coeff ≠ 0) (hc : 0 < T.coeff) (v : ℝ) (hv : 0 < v) :
    T.to_value (T.to_gene v) = v := by
  unfold ExponentialTransform.to_gene ExponentialTransform.to_value
  have h1 : T.exp_coeff * (Real.log (v / T.coeff) / T.exp_coeff) =
      Real.log (v / T.coeff) := by
    field_simp
  rw [h1, Real.exp_log (div_pos hv hc), mul_comm,
    div_mul_cancel₀ _ (ne_of_gt hc)]

/-- Claim C1: the spec and the code both claim that the coefficient
formulas map the boundary points exactly, to_value(g1) = v1 and
to_value(g2) = v2.  They do not: at gene_range (1, 2) and value_range
(1, 4) the constructed transform sends gene 1 to 16 (not 1) and gene 2 to
64 (not 4).  The repository test test_exponential_transform asserts the
boundary exactness that fails here, so the code contradicts its own test
suite: the coeff formula uses the exponent g1 / (g2 - g1) on v2 where the
correct derivation of v = c * exp(a * g) through the two boundary points
needs g1 / (g1 - g2). -/
theorem c1_exponential_boundary_failing_input :
    (ExponentialTransform.init (1, 2) (1, 4)).to_value 1 = 16 ∧
    (ExponentialTransform.init (1, 2) (1, 4)).to_value 2 = 64 ∧
    (16 : ℝ) ≠ 1 ∧ (64 : ℝ) ≠ 4 := by
  have h4 : Real.exp (Real.log 4) = 4 := Real.exp_log (by norm_num)
  have h16 : Real.exp (Real.log 4 * 2) = 16 := by
    rw [mul_two, Real.exp_add, h4]; norm_num
  refine ⟨?_, ?_, by norm_num, by norm_num⟩
  · simp only [ExponentialTransform.init, ExponentialTransform.to_value]
    norm_num [Real.one_rpow, Real.rpow_one, h4]
  · simp only [ExponentialTransform.init, ExponentialTransform.to_value]
    norm_num [Real.one_rpow, Real.rpow_one, h16]

/-- Claim C2, counterexample: the claim quantifies over every positive
value_range, including one with equal endpoints.  At gene_range (0, 1) and
value_range (1, 1) the transform has exp_coeff = 0, to_gene 2 is the
division log 2 / 0 (an inf in the numpy source, the junk value 0 in the
real embedding), and to_value(to_gene 2) = 1, not 2, so to_value and
to_gene are not mutual inverses there. -/
theorem c2_counterexample :
    (ExponentialTransform.init (0, 1) (1, 1)).to_value
      ((ExponentialTransform.init (0, 1) (1, 1)).to_gene 2) = 1 ∧
    (1 : ℝ) ≠ 2 := by
  constructor
  · norm_num [ExponentialTransform.init, ExponentialTransform.to_value,
      ExponentialTransform.to_gene, Real.one_rpow, Real.log_one]
  · norm_num

/-- Claim C2, amended: for every ExponentialTransform constructed from a
gene_range (g1, g2) with g1 distinct from g2 and a value_range (v1, v2)
with v1 and v2 positive AND v1 distinct from v2, to_gene inverts to_value
everywhere and to_value inverts to_gene on every positive value, over
exact real arithmetic. -/
theorem c2_exponential_mutual_inverses_amended (g1 g2 v1 v2 : ℝ)
    (hg : g1 ≠ g2) (hv1 : 0 < v1) (hv2 : 0 < v2) (hne : v1 ≠ v2) :
    (∀ g : ℝ, (ExponentialTransform.init (g1, g2) (v1, v2)).to_gene
      ((ExponentialTransform.init (g1, g2) (v1, v2)).to_value g) = g) ∧
    (∀ v : ℝ, 0 < v → (ExponentialTransform.init (g1, g2) (v1, v2)).to_value
      ((ExponentialTransform.init (g1, g2) (v1, v2)).to_gene v) = v) := by
  have hd : g2 - g1 ≠ 0 := sub_ne_zero.mpr (Ne.symm hg)
  have hvv : 0 < v2 / v1 := div_pos hv2 hv1
  have hlog : Real.log (v2 / v1) ≠ 0 := by
    intro h0
    rcases Real.log_eq_zero.mp h0 with h | h | h
    · exact absurd h (ne_of_gt hvv)
    · exact hne (((div_eq_one_iff_eq (ne_of_gt hv1)).mp h).symm)
    · linarith
  have ha : (ExponentialTransform.init (g1, g2) (v1, v2)).exp_coeff ≠ 0 := by
    show Real.log (v2 / v1) / (g2 - g1) ≠ 0
    exact div_ne_zero hlog hd
  have hc : 0 < (ExponentialTransform.init (g1, g2) (v1, v2)).coeff := by
    show 0 < v2 ^ (g1 / (g2 - g1)) * v1 ^ (g2 / (g2 - g1))
    exact mul_pos (Real.rpow_pos_of_pos hv2 _) (Real.rpow_pos_of_pos hv1 _)
  exact ⟨fun g => ExponentialTransform.to_gene_to_value _ ha hc g,
    fun v hv => ExponentialTransform.to_value_to_gene _ ha hc v hv⟩

/-- Claim C2, witness: the amended theorem applied to the concrete
transform with gene_range (0, 1) and value_range (1, 2), round-tripping
gene 5 and value 3. -/
theorem c2_witness :
    (0 : ℝ) ≠ 1 ∧ (0 : ℝ) < 1 ∧ (0 : ℝ) < 2 ∧ (1 : ℝ) ≠ 2 ∧
    (ExponentialTransform.init (0, 1) (1, 2)).to_gene
      ((ExponentialTransform.init (0, 1) (1, 2)).to_value 5) = 5 ∧
    (ExponentialTransform.init (0, 1) (1, 2)).to_value
      ((ExponentialTransform.init (0, 1) (1, 2)).to_gene 3) = 3 :=
  ⟨by norm_num, by norm_num, by norm_num, by norm_num,
    (c2_exponential_mutual_inverses_amended 0 1 1 2 (by norm_num) (by norm_num)
      (by norm_num) (by norm_num)).1 5,
    (c2_exponential_mutual_inverses_amended 0 1 1 2 (by norm_num) (by norm_num)
      (by norm_num) (by norm_num)).2 3 (by norm_num)⟩

/-- The degenerate linear transform constructed from value_range (5, 5):
slope 0 and intercept 5. -/
def ltDegenerate : LinearTransform := ⟨0, 5⟩

/-- Claim C6, counterexample: the claim quantifies over any value_range,
including one with equal endpoints.  At gene_range (0, 1) and value_range
(5, 5) construction succeeds with slope 0, and to_gene 7 raises
ZeroDivisionError (a plain Python float division by the zero slope), so
to_value(to_gene 7) = 7 fails: there is no returned gene at all. -/
theorem c6_counterexample :
    LinearTransform.init (0, 1) (5, 5) = Except.ok ltDegenerate ∧
    ltDegenerate.to_gene 7 = Except.error PyErr.zeroDivision := by
  constructor
  · norm_num [LinearTransform.init, pydiv, ltDegenerate]
  · norm_num [LinearTransform.to_gene, pydiv, ltDegenerate]

/-- Claim C6, amended: for every LinearTransform constructed from a
gene_range (g1, g2) with g1 distinct from g2 and a value_range (v1, v2)
with v1 distinct from v2, construction succeeds and to_value and to_gene
are mutual inverses over exact real arithmetic: to_gene never raises and
round-trips in both directions. -/
theorem c6_linear_mutual_inverses_amended (g1 g2 v1 v2 : ℝ)
    (hg : g1 ≠ g2) (hv : v1 ≠ v2) :
    ∃ T : LinearTransform,
      LinearTransform.init (g1, g2) (v1, v2) = Except.ok T ∧
      (∀ g : ℝ, T.to_gene (T.to_value g) = Except.ok g) ∧
      (∀ v : ℝ, ∃ g : ℝ, T.to_gene v = Except.ok g ∧ T.to_value g = v) := by
  have hgne : g2 - g1 ≠ 0 := sub_ne_zero.mpr (Ne.symm hg)
  have hvne : v2 - v1 ≠ 0 := sub_ne_zero.mpr (Ne.symm hv)
  have hs : (v2 - v1) / (g2 - g1) ≠ 0 := div_ne_zero hvne hgne
  refine ⟨⟨(v2 - v1) / (g2 - g1), (v1 * g2 - v2 * g1) / (g2 - g1)⟩, ?_, ?_, ?_⟩
  · simp [LinearTransform.init, pydiv, hgne]
  · intro g
    simp only [LinearTransform.to_gene, LinearTransform.to_value, pydiv,
      if_neg hs, add_sub_cancel_right]
    rw [mul_div_cancel_left₀ _ hs]
  · intro v
    refine ⟨(v - (v1 * g2 - v2 * g1) / (g2 - g1)) / ((v2 - v1) / (g2 - g1)),
      ?_, ?_⟩
    · simp [LinearTransform.to_gene, pydiv, hs]
    · simp only [LinearTransform.to_value]
      rw [mul_comm, div_mul_cancel₀ _ hs]
      ring

/-- Claim C6, witness: the amended theorem applied to the concrete
transform with gene_range (-1, 1) and value_range (0, 100), the concrete
scenario of the spec. -/
theorem c6_witness :
    (-1 : ℝ) ≠ 1 ∧ (0 : ℝ) ≠ 100 ∧
    ∃ T : LinearTransform,
      LinearTransform.init (-1, 1) (0, 100) = Except.ok T ∧
      (∀ g : ℝ, T.to_gene (T.to_value g) = Except.ok g) ∧
      (∀ v : ℝ, ∃ g : ℝ, T.to_gene v = Except.ok g ∧ T.to_value g = v) :=
  ⟨by norm_num, by norm_num,
    c6_linear_mutual_inverses_amended (-1) 1 0 100 (by norm_num) (by norm_num)⟩

/-- Claim C9: for every gene_range with equal endpoints, LinearTransform
construction fails with the division-by-zero error instead of returning a
transform: the slope division is a plain Python float division whose
denominator g2 - g1 is zero. -/
theorem c9_degenerate_gene_range_error (g1 g2 v1 v2 : ℝ) (h : g1 = g2) :
    LinearTransform.init (g1, g2) (v1, v2) = Except.error PyErr.zeroDivision := by
  subst h
  simp [LinearTransform.init, pydiv]

/-- Claim C9, witness: construction at gene_range (1, 1) and value_range
(3, 7) raises. -/
theorem c9_witness :
    LinearTransform.init (1, 1) (3, 7) = Except.error PyErr.zeroDivision :=
  c9_degenerate_gene_range_error 1 1 3 7 rfl

/-- When the crossover retry loop returns, either it never ran (its entry
mask had no pending row and it returned its entry offspring), or the last
feasibility check over the whole returned array reported no violation. -/
lemma crossoverLoop_post (condition : List Row → List Bool)
    (cf : ℕ → List Row → ℕ × ℕ → List Row) (shuffle : ℕ → List Row → List Row)
    (cols : ℕ) :
    ∀ fuel k parents offspring tg out,
      crossoverLoop condition cf shuffle cols fuel k parents offspring tg =
        some out →
      (tg.any id = false ∧ out = offspring) ∨
        (condition out).any id = false := by
  intro fuel
  induction fuel with
  | zero =>
    intro k parents offspring tg out h
    exact absurd h (by simp [crossoverLoop])
  | succ n ih =>
    intro k parents offspring tg out h
    simp only [crossoverLoop] at h
    by_cases htg : tg.any id = true
    · rw [if_pos htg] at h
      rcases ih _ _ _ _ _ h with ⟨h1, h2⟩ | h1
      · right; rw [h2]; exact h1
      · right; exact h1
    · rw [if_neg htg] at h
      exact Or.inl ⟨Bool.not_eq_true _ ▸ htg, (Option.some.inj h).symm⟩

/-- When the mutation retry loop returns, either it never ran, or the last
feasibility check over the whole returned array reported no violation. -/
lemma mutationLoop_post (condition : List Row → List Bool)
    (mf : ℕ → List Row → List Row) (initial : List Row) :
    ∀ fuel k offspring check out,
      mutationLoop condition mf initial fuel k offspring check = some out →
      (check.any id = false ∧ out = offspring) ∨
        (condition out).any id = false := by
  intro fuel
  induction fuel with
  | zero =>
    intro k offspring check out h
    exact absurd h (by simp [mutationLoop])
  | succ n ih =>
    intro k offspring check out h
    simp only [mutationLoop] at h
    by_cases hck : check.any id = true
    · rw [if_pos hck] at h
      rcases ih _ _ _ _ h with ⟨h1, h2⟩ | h1
      · right; rw [h2]; exact h1
      · right; exact h1
    · rw [if_neg hck] at h
      exact Or.inl ⟨Bool.not_eq_true _ ▸ hck, (Option.some.inj h).symm⟩

/-- Claim C3: whenever a constrained wrapper call (crossover variant or
mutation variant) returns normally, the feasibility predicate applied to
the entire returned array reports zero violations, for every base
operator and every predicate for which the retry loop terminates (some
fuel suffices).  The predicate is assumed to honour its documented
contract of returning one boolean per row. -/
theorem c3_wrapper_postcondition (condition : List Row → List Bool)
    (hlen : ∀ rows, (condition rows).length = rows.length)
    (cf : ℕ → List Row → ℕ × ℕ → List Row) (shuffle : ℕ → List Row → List Row)
    (mf : ℕ → List Row → List Row) (parents offspring : List Row)
    (offspring_size : ℕ × ℕ) (fuel1 fuel2 : ℕ) (out1 out2 : List Row) :
    (conditional_crossover_func condition cf shuffle parents offspring_size
        fuel1 = some (Except.ok out1) → (condition out1).any id = false) ∧
    (conditional_mutation_func condition mf offspring fuel2 =
        some (Except.ok out2) → (condition out2).any id = false) := by
  constructor
  · intro h
    unfold conditional_crossover_func at h
    by_cases hpar : (condition parents).any id = true
    · rw [if_pos hpar] at h
      exact absurd h (by simp)
    · rw [if_neg hpar] at h
      obtain ⟨res, hres, hok⟩ := Option.map_eq_some'.mp h
      have hout : res = out1 := Except.ok.inj hok
      subst hout
      rcases crossoverLoop_post condition cf shuffle offspring_size.2 _ _ _ _ _
          _ hres with ⟨h1, h2⟩ | h1
      · have hR : offspring_size.1 = 0 := by
          by_contra hR
          rcases Nat.exists_eq_succ_of_ne_zero hR with ⟨m, hm⟩
          rw [hm] at h1
          simp [List.replicate_succ] at h1
        rw [hR] at h2
        simp only [List.replicate] at h2
        rw [h2]
        have h0 : condition [] = [] :=
          List.length_eq_zero.mp (by simpa using hlen [])
        rw [h0]
        rfl
      · exact h1
  · intro h
    unfold conditional_mutation_func at h
    by_cases hoff : (condition offspring).any id = true
    · rw [if_pos hoff] at h
      exact absurd h (by simp)
    · rw [if_neg hoff] at h
      obtain ⟨res, hres, hok⟩ := Option.map_eq_some'.mp h
      have hout : res = out2 := Except.ok.inj hok
      subst hout
      rcases mutationLoop_post condition mf offspring _ _ _ _ _ hres with
        ⟨_, h2⟩ | h1
      · rw [h2]
        exact Bool.not_eq_true _ ▸ hoff
      · exact h1

/-- Claim C3, witness: the all-feasible predicate with an empty parent
batch, an empty offspring request, one unit of fuel, and bases that
return nothing; both wrapper calls return and the theorem yields the
all-clear mask over the returned arrays. -/
theorem c3_witness :
    ((fun rows : List Row => rows.map fun _ => false) []).any id = false :=
  (c3_wrapper_postcondition (fun rows => rows.map fun _ => false)
    (fun rows => by simp) (fun _ _ _ => []) (fun _ p => p) (fun _ r => r)
    [] [] (0, 0) 1 1 [] []).1 rfl

/-- Rows at positions where the mask is false are untouched by a
boolean-mask write. -/
lemma maskWrite_get_false :
    ∀ (mask : List Bool) (ds ns : List Row) (j : ℕ),
      mask[j]? = some false → (maskWrite mask ds ns)[j]? = ds[j]? := by
  intro mask
  induction mask with
  | nil =>
    intro ds ns j h
    simp at h
  | cons b ms ih =>
    intro ds ns j h
    cases ds with
    | nil => cases b <;> simp [maskWrite]
    | cons d ds2 =>
      cases j with
      | zero =>
        have hb : b = false := by simpa using h
        subst hb
        simp [maskWrite]
      | succ m =>
        have hm : ms[m]? = some false := by simpa using h
        cases b
        · simpa [maskWrite] using ih ds2 ns m hm
        · cases ns with
          | nil => simpa [maskWrite] using ih ds2 [] m hm
          | cons nn ns2 => simpa [maskWrite] using ih ds2 ns2 m hm

/-- The mutation retry loop only ever evaluates its base mutation operator
on boolean-mask selections taken from the snapshot it carries: two base
operators that agree on every such selection drive the loop identically. -/
lemma mutationLoop_congr (condition : List Row → List Bool)
    (mf mf2 : ℕ → List Row → List Row) (initial : List Row)
    (hagree : ∀ k mask, mf k (maskSelect mask initial) =
      mf2 k (maskSelect mask initial)) :
    ∀ fuel k offspring check,
      mutationLoop condition mf initial fuel k offspring check =
      mutationLoop condition mf2 initial fuel k offspring check := by
  intro fuel
  induction fuel with
  | zero => intro k offspring check; rfl
  | succ n ih =>
    intro k offspring check
    simp only [mutationLoop]
    by_cases hck : check.any id = true
    · rw [if_pos hck, if_pos hck, hagree k check]
      exact ih _ _ _
    · rw [if_neg hck, if_neg hck]

/-- Claim C4: in every iteration of the constrained mutation wrapper, the
rows handed to the base mutation operator are mask selections of the
unmodified entry snapshot (two base operators agreeing on all such
selections make the whole wrapper agree, for every fuel, so the wrapper
never feeds the operator a row rewritten by an earlier iteration), and a
single iteration writes back only at positions whose mask entry is true:
any row currently marked as passing keeps its value. -/
theorem c4_mutation_snapshot (condition : List Row → List Bool)
    (mf mf2 : ℕ → List Row → List Row) (offspring : List Row)
    (hagree : ∀ k mask, mf k (maskSelect mask offspring) =
      mf2 k (maskSelect mask offspring)) :
    (∀ fuel, conditional_mutation_func condition mf offspring fuel =
      conditional_mutation_func condition mf2 offspring fuel) ∧
    (∀ k (current : List Row) (check : List Bool) (j : ℕ),
      check[j]? = some false →
      (maskWrite check current (mf k (maskSelect check offspring)))[j]? =
        current[j]?) := by
  constructor
  · intro fuel
    unfold conditional_mutation_func
    by_cases h : (condition offspring).any id = true
    · rw [if_pos h, if_pos h]
    · rw [if_neg h, if_neg h,
        mutationLoop_congr condition mf mf2 offspring hagree]
  · intro k current check j hj
    exact maskWrite_get_false check current _ j hj

/-- Claim C4, witness: the theorem applied to the identity base mutation
on the one-row offspring batch, with a concrete non-failing position. -/
theorem c4_witness :
    conditional_mutation_func (fun rows => rows.map fun _ => false)
        (fun _ r => r) [[1]] 3 =
      conditional_mutation_func (fun rows => rows.map fun _ => false)
        (fun _ r => r) [[1]] 3 ∧
    (maskWrite [false] ([[2]] : List Row)
        ((fun _ r => r) 0 (maskSelect [false] ([[1]] : List Row))))[0]? =
      ([[2]] : List Row)[0]? :=
  ⟨(c4_mutation_snapshot (fun rows => rows.map fun _ => false)
      (fun _ r => r) (fun _ r => r) [[1]] (fun _ _ => rfl)).1 3,
    (c4_mutation_snapshot (fun rows => rows.map fun _ => false)
      (fun _ r => r) (fun _ r => r) [[1]] (fun _ _ => rfl)).2 0 [[2]]
      [false] 0 (by simp)⟩

/-- Claim C5: whenever the feasibility predicate marks at least one row of
the input (parents for the crossover variant, offspring for the mutation
variant) as infeasible, the wrapper raises its precondition error at once:
for any amount of fuel, including none, and for any two base operators,
the result is the same error, so no call to the base operator happens (in
the functional embedding the caller arrays are values and are trivially
left unchanged; the source performs no write before the raise). -/
theorem c5_precondition_error (condition : List Row → List Bool)
    (cf cf2 : ℕ → List Row → ℕ × ℕ → List Row)
    (shuffle shuffle2 : ℕ → List Row → List Row)
    (mf mf2 : ℕ → List Row → List Row)
    (parents offspring : List Row) (offspring_size : ℕ × ℕ)
    (fuel fuel2 : ℕ)
    (hpar : (condition parents).any id = true)
    (hoff : (condition offspring).any id = true) :
    conditional_crossover_func condition cf shuffle parents offspring_size
        fuel = some (Except.error PyErr.parentsCondition) ∧
    conditional_crossover_func condition cf2 shuffle2 parents offspring_size
        fuel2 = some (Except.error PyErr.parentsCondition) ∧
    conditional_mutation_func condition mf offspring fuel =
      some (Except.error PyErr.offspringCondition) ∧
    conditional_mutation_func condition mf2 offspring fuel2 =
      some (Except.error PyErr.offspringCondition) := by
  unfold conditional_crossover_func conditional_mutation_func
  rw [if_pos hpar, if_pos hpar, if_pos hoff, if_pos hoff]
  exact ⟨rfl, rfl, rfl, rfl⟩

/-- Claim C5, witness: the all-infeasible predicate on one-row inputs
makes both wrappers raise with zero fuel and distinct base operators. -/
theorem c5_witness :
    ((fun rows : List Row => rows.map fun _ => true) [[0]]).any id = true ∧
    conditional_crossover_func (fun rows => rows.map fun _ => true)
        (fun _ _ _ => []) (fun _ p => p) [[0]] (1, 1) 0 =
      some (Except.error PyErr.parentsCondition) ∧
    conditional_mutation_func (fun rows => rows.map fun _ => true)
        (fun _ r => r) [[1]] 0 =
      some (Except.error PyErr.offspringCondition) :=
  ⟨rfl,
    (c5_precondition_error (fun rows => rows.map fun _ => true)
      (fun _ _ _ => []) (fun _ _ _ => [[5]]) (fun _ p => p) (fun _ p => p)
      (fun _ r => r) (fun _ r => r) [[0]] [[1]] (1, 1) 0 7 rfl rfl).1,
    (c5_precondition_error (fun rows => rows.map fun _ => true)
      (fun _ _ _ => []) (fun _ _ _ => [[5]]) (fun _ p => p) (fun _ p => p)
      (fun _ r => r) (fun _ r => r) [[0]] [[1]] (1, 1) 0 7 rfl rfl).2.2.1⟩

/-- The dictionary built by to_parameters is as long as the shorter of the
gene vector and the parameter list. -/
lemma buildParams_length (gs : List ℝ) (kts : List (String × Transform)) :
    (buildParams gs kts).length = min gs.length kts.length := by
  induction gs generalizing kts with
  | nil => cases kts <;> simp [buildParams]
  | cons g gs2 ih =>
    cases kts with
    | nil => simp [buildParams]
    | cons kt rest =>
      simp only [buildParams, List.length_cons, ih]
      omega

/-- The entry of the built dictionary at any in-range position pairs the
parameter name at that position with its to_value applied to the gene at
that position. -/
lemma buildParams_get :
    ∀ (gs : List ℝ) (kts : List (String × Transform)) (i : ℕ) (g : ℝ)
      (kt : String × Transform),
      gs[i]? = some g → kts[i]? = some kt →
      (buildParams gs kts)[i]? = some (kt.1, kt.2.to_value g) := by
  intro gs
  induction gs with
  | nil => intro kts i g kt hg _; simp at hg
  | cons a as ih =>
    intro kts i g kt hg hk
    cases kts with
    | nil => simp at hk
    | cons b bs =>
      cases i with
      | zero =>
        have ha : a = g := by simpa using hg
        have hb : b = kt := by simpa using hk
        subst ha; subst hb
        simp [buildParams]
      | succ m =>
        have hg2 : as[m]? = some g := by simpa using hg
        have hk2 : bs[m]? = some kt := by simpa using hk
        simpa [buildParams] using ih bs m g kt hg2 hk2

/-- Claim C8: to_parameters raises the size-mismatch error exactly when
the gene count differs from the declared parameter count; on a match it
returns the dictionary that assigns, position by position in insertion
order, each parameter name its to_value of the gene at that position. -/
theorem c8_to_parameters_characterisation (ps : List (String × Transform))
    (genes : List ℝ) :
    ((∃ e, ParameterSpace.to_parameters ps genes = Except.error e) ↔
      genes.length ≠ ps.length) ∧
    (∀ d, ParameterSpace.to_parameters ps genes = Except.ok d →
      d.length = ps.length ∧
      ∀ (i : ℕ) (g : ℝ) (kt : String × Transform),
        genes[i]? = some g → ps[i]? = some kt →
        d[i]? = some (kt.1, kt.2.to_value g)) := by
  unfold ParameterSpace.to_parameters
  by_cases h : genes.length = ps.length
  · have hni : ¬genes.length ≠ ps.length := fun hc => hc h
    rw [if_neg hni]
    constructor
    · constructor
      · rintro ⟨e, he⟩
        exact absurd he (by simp)
      · intro hne
        exact absurd h hne
    · intro d hd
      have hd2 : buildParams genes ps = d := Except.ok.inj hd
      subst hd2
      refine ⟨?_, ?_⟩
      · rw [buildParams_length, h, min_self]
      · intro i g kt hg hk
        exact buildParams_get genes ps i g kt hg hk
  · rw [if_pos h]
    constructor
    · simp [h]
    · intro d hd
      exact absurd hd (by simp)

/-- Claim C8, witness: the theorem at an empty parameter space and a
one-gene vector yields the size-mismatch raise. -/
theorem c8_witness :
    ∃ e, ParameterSpace.to_parameters ([] : List (String × Transform))
      [(3 : ℝ)] = Except.error e :=
  (c8_to_parameters_characterisation [] [3]).1.mpr (by simp)

/-- A duck-typed entry whose to_gene is not the inverse of its to_value:
to_value is the identity, to_gene constantly returns gene 0.  The
reference ParameterSpace stores such an object as-is. -/
def badTransform : Transform := ⟨fun g => g, fun _ => Except.ok 0⟩

/-- Claim C7, counterexample: the claim quantifies over every
ParameterSpace, including one holding a stored-as-is entry whose to_gene
does not invert its to_value.  Built over the single parameter x with
badTransform, to_genes(to_parameters([3])) returns [0], not [3]. -/
theorem c7_counterexample :
    ParameterSpace.init [("x", ParamEntry.transform badTransform)] none =
      Except.ok [("x", badTransform)] ∧
    ParameterSpace.to_parameters [("x", badTransform)] [3] =
      Except.ok [("x", (3 : ℝ))] ∧
    ParameterSpace.to_genes [("x", badTransform)] [("x", (3 : ℝ))] =
      Except.ok [0] ∧
    (0 : ℝ) ≠ 3 := by
  refine ⟨rfl, rfl, rfl, by norm_num⟩

/-- Prepending a binding whose key occurs in none of the stored entries
does not change what to_genes computes. -/
lemma to_genes_cons_fresh (k : String) (x : ℝ) :
    ∀ (ps : List (String × Transform)) (d : List (String × ℝ)),
      k ∉ ps.map Prod.fst →
      ParameterSpace.to_genes ps ((k, x) :: d) =
        ParameterSpace.to_genes ps d := by
  intro ps
  induction ps with
  | nil => intro d _; rfl
  | cons kt rest ih =>
    intro d h
    simp only [List.map_cons, List.mem_cons, not_or] at h
    obtain ⟨h1, h2⟩ := h
    have hbeq : (kt.1 == k) = false := beq_eq_false_iff_ne.mpr fun he => h1 he.symm
    simp only [ParameterSpace.to_genes, List.lookup, hbeq, ih d h2]

/-- Round-trip over a parameter space whose entry names are pairwise
distinct and whose transforms each invert in the to_gene-after-to_value
direction: decoding and re-encoding reproduces the gene vector. -/
lemma to_genes_buildParams (ps : List (String × Transform)) (genes : List ℝ)
    (hnodup : (ps.map Prod.fst).Nodup)
    (hinv : ∀ kt ∈ ps, ∀ g : ℝ, kt.2.to_gene (kt.2.to_value g) = Except.ok g)
    (hlen : genes.length = ps.length) :
    ParameterSpace.to_genes ps (buildParams genes ps) = Except.ok genes := by
  induction ps generalizing genes with
  | nil =>
    have hg : genes = [] := List.length_eq_zero.mp (by simpa using hlen)
    subst hg
    rfl
  | cons kt rest ih =>
    cases genes with
    | nil => simp at hlen
    | cons g gs =>
      have hlen2 : gs.length = rest.length := by simpa using hlen
      simp only [List.map_cons, List.nodup_cons] at hnodup
      obtain ⟨hfresh, hnodup2⟩ := hnodup
      have hfresh2 : kt.1 ∉ rest.map Prod.fst := hfresh
      simp only [buildParams, ParameterSpace.to_genes, List.lookup,
        beq_self_eq_true]
      rw [to_genes_cons_fresh kt.1 (kt.2.to_value g) rest
        (buildParams gs rest) hfresh2]
      rw [hinv kt (by simp) g]
      rw [ih gs hnodup2
        (fun p hp g2 => hinv p (List.mem_cons_of_mem kt hp) g2) hlen2]

/-- Claim C7, amended: for every ParameterSpace whose stored transforms
each satisfy the invertibility that valid constructed transforms have
(to_gene after to_value is the identity), and every gene vector of the
correct length, to_genes(to_parameters(genes)) returns the input genes in
insertion order.  The pairwise distinctness of the names is inherited from
the Python dictionary holding the entries. -/
theorem c7_roundtrip_amended (ps : List (String × Transform))
    (genes : List ℝ) (hnodup : (ps.map Prod.fst).Nodup)
    (hinv : ∀ kt ∈ ps, ∀ g : ℝ, kt.2.to_gene (kt.2.to_value g) = Except.ok g)
    (d : List (String × ℝ))
    (hd : ParameterSpace.to_parameters ps genes = Except.ok d) :
    ParameterSpace.to_genes ps d = Except.ok genes := by
  unfold ParameterSpace.to_parameters at hd
  by_cases hlen : genes.length ≠ ps.length
  · rw [if_pos hlen] at hd
    exact absurd hd (by simp)
  · rw [if_neg hlen] at hd
    have hd2 : buildParams genes ps = d := Except.ok.inj hd
    subst hd2
    push_neg at hlen
    exact to_genes_buildParams ps genes hnodup hinv hlen

/-- Claim C7, witness: the amended theorem on the identity-slope linear
transform under the name y, round-tripping the gene vector with single
entry 4. -/
theorem c7_witness :
    ParameterSpace.to_genes [("y", LinearTransform.toTransform ⟨1, 0⟩)]
      [("y", (4 : ℝ))] = Except.ok [4] :=
  c7_roundtrip_amended [("y", LinearTransform.toTransform ⟨1, 0⟩)] [4]
    (by simp)
    (by
      intro kt hkt g
      simp only [List.mem_singleton] at hkt
      subst hkt
      simp [LinearTransform.toTransform, LinearTransform.to_gene,
        LinearTransform.to_value, pydiv])
    [("y", (4 : ℝ))] (by norm_num [ParameterSpace.to_parameters, buildParams,
      LinearTransform.toTransform, LinearTransform.to_value])

/-- Claim C10: for a 3-tuple entry with an unrecognized kind string and no
gene_range, ParameterSpace construction raises the missing-gene-range
error, not the unknown-kind error; the unknown-kind error only surfaces
once a gene_range is present, because the presence check runs after the
tuple-length dispatch but before the kind string is examined. -/
theorem c10_missing_gene_range_precedence (v_min v_max : ℝ) (gr : ℝ × ℝ)
    (kind : String) (h1 : kind ≠ kindLin) (h2 : kind ≠ kindLinear)
    (h3 : kind ≠ kindExp) (h4 : kind ≠ kindExponential) :
    processEntry (ParamEntry.triple v_min v_max kind) none =
      Except.error PyErr.missingGeneRange ∧
    processEntry (ParamEntry.triple v_min v_max kind) (some gr) =
      Except.error PyErr.unknownTransformType := by
  constructor
  · rfl
  · simp [processEntry, mkFromRange, h1, h2, h3, h4]

/-- The unrecognized transform-kind string used by the claim C10
witness. -/
def kindQuadratic : String := "quadratic"

/-- Claim C10, witness: the kind quadratic is none of the four recognized
strings, and the theorem yields both raise behaviours at value bounds
(0, 1) and gene_range (0, 1). -/
theorem c10_witness :
    kindQuadratic ≠ kindLin ∧ kindQuadratic ≠ kindLinear ∧
    kindQuadratic ≠ kindExp ∧ kindQuadratic ≠ kindExponential ∧
    processEntry (ParamEntry.triple 0 1 kindQuadratic) none =
      Except.error PyErr.missingGeneRange ∧
    processEntry (ParamEntry.triple 0 1 kindQuadratic) (some (0, 1)) =
      Except.error PyErr.unknownTransformType :=
  ⟨by decide, by decide, by decide, by decide,
    (c10_missing_gene_range_precedence 0 1 (0, 1) kindQuadratic (by decide)
      (by decide) (by decide) (by decide)).1,
    (c10_missing_gene_range_precedence 0 1 (0, 1) kindQuadratic (by decide)
      (by decide) (by decide) (by decide)).2⟩

end
